import Mathlib

/-
  Shallow embedding of the eye-tracking core of MyExpoApp (src/EyeTracker.js):
  the EyeFeatureExtractor (fixation/saccade segmenter plus metrics),
  the Calibrator (target grid, sample collection, mean-offset model, prediction)
  and the EyeTracker per-frame pipeline.

  JavaScript numbers are modelled as real numbers (exact arithmetic); JS
  truthiness of a nullable numeric field (null and 0 are both falsy) is
  modelled explicitly where the source tests such a field with if (x).
-/

/-- A 2-D point, as the two-element arrays [x, y] used throughout the source. -/
abbrev Point : Type := ℝ × ℝ

/-- A facial landmark: a 3-D point in detector-normalized coordinates. -/
structure Landmark where
  x : ℝ
  y : ℝ
  z : ℝ

/-- The per-frame landmark list, indexed by fixed positions; absent indices
    (out-of-range reads in JS give undefined) are modelled as none. -/
abbrev Landmarks : Type := ℕ → Option Landmark

/-- euclideanDistance from EyeTracker.js: sqrt((p2x-p1x)^2 + (p2y-p1y)^2). -/
noncomputable def euclideanDistance (p1 p2 : Point) : ℝ :=
  Real.sqrt ((p2.1 - p1.1) ^ 2 + (p2.2 - p1.2) ^ 2)

/-- JS truthiness of a nullable numeric field: null and 0 are falsy. -/
def jsNumTruthy : Option ℝ → Prop
  | none => False
  | some t => t ≠ 0

noncomputable instance (o : Option ℝ) : Decidable (jsNumTruthy o) :=
  match o with
  | none => isFalse (fun h => h)
  | some t => inferInstanceAs (Decidable (t ≠ 0))

/-- One entry of the segmenter's gazeHistory. -/
structure GazeEntry where
  point : Point
  timestamp : ℝ

/-- A finalized fixation event (source field end is named endTime here). -/
structure FixationEvent where
  point : Point
  duration : ℝ
  start : ℝ
  endTime : ℝ

/-- A saccade event (source field end is named endPoint here). -/
structure SaccadeEvent where
  start : Point
  endPoint : Point
  distance : ℝ
  duration : ℝ

/-- The six summary metrics returned by getMetrics. -/
structure Metrics where
  gazeDuration : ℝ
  dwellTime : ℝ
  saccadeLength : ℝ
  distractorSaccades : ℕ
  fixationCount : ℕ
  refixationRatio : ℝ

/-- State of the EyeFeatureExtractor class (fixation/saccade segmenter). -/
structure EyeFeatureExtractor where
  fixationRadius : ℝ
  fixationDuration : ℝ
  saccadeThreshold : ℝ
  gazeHistory : List GazeEntry
  fixations : List FixationEvent
  saccades : List SaccadeEvent
  lastGazePoint : Option Point
  lastGazeTimestamp : Option ℝ
  lastFixationStart : Option ℝ
  lastFixationPoint : Option Point

/-- The constructor: default thresholds 50 px radius, 100 ms duration,
    30 px saccade threshold, all histories empty. -/
def EyeFeatureExtractor.init : EyeFeatureExtractor :=
  ⟨50, 100, 30, [], [], [], none, none, none, none⟩

/-- reset(): clears histories and tracking fields (thresholds untouched). -/
def EyeFeatureExtractor.reset (s : EyeFeatureExtractor) : EyeFeatureExtractor :=
  { s with gazeHistory := [], fixations := [], saccades := [],
           lastGazePoint := none, lastGazeTimestamp := none,
           lastFixationStart := none, lastFixationPoint := none }

/-- endFixation(point, timestamp): if the open candidate is truthy and its
    duration meets the threshold, append a FixationEvent; always clear the
    candidate afterwards. -/
noncomputable def EyeFeatureExtractor.endFixation
    (s : EyeFeatureExtractor) (point : Point) (timestamp : ℝ) :
    EyeFeatureExtractor :=
  let s1 :=
    match s.lastFixationStart with
    | some fs =>
      -- if (this.lastFixationStart): numeric truthiness, 0 is falsy
      if fs ≠ 0 then
        let duration := timestamp - fs
        let ev : FixationEvent := ⟨point, duration, fs, timestamp⟩
        if duration ≥ s.fixationDuration then
          { s with fixations := s.fixations ++ [ev] }
        else s
      else s
    | none => s
  { s1 with lastFixationStart := none, lastFixationPoint := none }

/-- processGaze(gazePoint, timestamp): push history; with a previous point,
    branch on the saccade threshold; otherwise track or extend the open
    fixation candidate; finally update the last point/timestamp.
    lastGazeTimestamp and lastFixationPoint are read through getD only at
    spots where the source reads the raw field, which is always set whenever
    the guarding field is (the defaults are never reachable). -/
noncomputable def EyeFeatureExtractor.processGaze
    (s : EyeFeatureExtractor) (gazePoint : Point) (timestamp : ℝ) :
    EyeFeatureExtractor :=
  let entry : GazeEntry := ⟨gazePoint, timestamp⟩
  let s0 := { s with gazeHistory := s.gazeHistory ++ [entry] }
  let s1 :=
    match s0.lastGazePoint with
    | none => s0
    | some lp =>
      let distance := euclideanDistance lp gazePoint
      if distance > s0.saccadeThreshold then
        let sac : SaccadeEvent :=
          ⟨lp, gazePoint, distance, timestamp - s0.lastGazeTimestamp.getD 0⟩
        let s2 := { s0 with saccades := s0.saccades ++ [sac] }
        let s3 :=
          if jsNumTruthy s2.lastFixationStart then
            s2.endFixation lp (s2.lastGazeTimestamp.getD 0)
          else s2
        { s3 with lastFixationStart := none, lastFixationPoint := none }
      else
        if jsNumTruthy s0.lastFixationStart then
          match s0.lastFixationStart with
          | some fs =>
            if timestamp - fs ≥ s0.fixationDuration then
              let lfp := s0.lastFixationPoint.getD (0, 0)
              if euclideanDistance lfp gazePoint ≤ s0.fixationRadius then
                let mid : Point := ((lfp.1 + gazePoint.1) / 2, (lfp.2 + gazePoint.2) / 2)
                { s0 with lastFixationPoint := some mid }
              else
                let s4 := s0.endFixation lfp timestamp
                { s4 with lastFixationStart := some timestamp,
                          lastFixationPoint := some gazePoint }
            else s0
          | none => s0
        else
          { s0 with lastFixationStart := some timestamp,
                    lastFixationPoint := some gazePoint }
  { s1 with lastGazePoint := some gazePoint, lastGazeTimestamp := some timestamp }

/-- The end-of-stream flush at the top of getMetrics: if the candidate and the
    last point/timestamp are all truthy, force-finalize at the last point. -/
noncomputable def EyeFeatureExtractor.flushOpenFixation
    (s : EyeFeatureExtractor) : EyeFeatureExtractor :=
  match s.lastFixationStart, s.lastGazePoint, s.lastGazeTimestamp with
  | some fs, some p, some ts =>
    if fs ≠ 0 ∧ ts ≠ 0 then s.endFixation p ts else s
  | _, _, _ => s

/-- The aggregate computation at the bottom of getMetrics. -/
noncomputable def EyeFeatureExtractor.computeMetrics
    (s : EyeFeatureExtractor) : Metrics :=
  let totalGazeDuration :=
    if 1 < s.gazeHistory.length then
      ((s.gazeHistory.getLast?.map GazeEntry.timestamp).getD 0)
        - ((s.gazeHistory.head?.map GazeEntry.timestamp).getD 0)
    else 0
  let fixationCount := s.fixations.length
  let totalSaccades := s.saccades.length
  let dwellTime := (s.fixations.map FixationEvent.duration).sum
  let refixationRatio :=
    if 0 < fixationCount then ((fixationCount : ℝ) - 1) / (fixationCount : ℝ)
    else 0
  let distractorSaccades := 0
  let saccadeLength :=
    if 0 < totalSaccades then
      (s.saccades.map SaccadeEvent.distance).sum / (totalSaccades : ℝ)
    else 0
  ⟨totalGazeDuration, dwellTime, saccadeLength, distractorSaccades,
    fixationCount, refixationRatio⟩

/-- getMetrics(): flush any open candidate, then compute the aggregates.
    The method mutates the extractor, so it is modelled as value + new state. -/
noncomputable def EyeFeatureExtractor.getMetrics
    (s : EyeFeatureExtractor) : Metrics × EyeFeatureExtractor :=
  let s1 := s.flushOpenFixation
  (s1.computeMetrics, s1)

/-- Run a list of (point, timestamp) samples through processGaze. -/
noncomputable def EyeFeatureExtractor.runGaze
    (s : EyeFeatureExtractor) (inputs : List (Point × ℝ)) :
    EyeFeatureExtractor :=
  inputs.foldl (fun a i => a.processGaze i.1 i.2) s

/-- The trained model: the mean per-axis offset. -/
structure CalModel where
  offsetX : ℝ
  offsetY : ℝ

/-- One calibration sample: features, raw observed gaze, current target. -/
structure CalibrationSample where
  features : List ℝ
  gaze : Point
  target : Point

/-- State of the Calibrator class. -/
structure Calibrator where
  screenWidth : ℝ
  screenHeight : ℝ
  calibrationPoints : List Point
  gazeData : List CalibrationSample
  model : Option CalModel
  isCalibrating : Bool
  currentCalibrationIndex : ℕ
  calibrationTargets : List Point
  samplesPerPoint : ℕ
  currentSamples : ℕ

/-- _generateCalibrationTargets: the 5 by 5 grid, row-major, with steps
    W/(numCols+1) and H/(numRows+1). -/
noncomputable def Calibrator.generateCalibrationTargets (W H : ℝ) : List Point :=
  let numRows : ℕ := 5
  let numCols : ℕ := 5
  let xStep := W / ((numCols : ℝ) + 1)
  let yStep := H / ((numRows : ℝ) + 1)
  (List.range numRows).flatMap fun r : ℕ =>
    (List.range numCols).map fun c : ℕ =>
      (((c : ℝ) + 1) * xStep, ((r : ℝ) + 1) * yStep)

/-- The Calibrator constructor. -/
noncomputable def Calibrator.init (W H : ℝ) : Calibrator :=
  ⟨W, H, [], [], none, false, 0, Calibrator.generateCalibrationTargets W H, 30, 0⟩

/-- startCalibration(): enter the calibrating state, clear samples and model. -/
def Calibrator.startCalibration (c : Calibrator) : Calibrator :=
  { c with isCalibrating := true, currentCalibrationIndex := 0,
           gazeData := [], model := none, currentSamples := 0 }

/-- _extractFeatures: ten scalars from the six required eye landmarks, or an
    all-zero vector when any of them is absent. -/
noncomputable def Calibrator.extractFeatures (landmarks : Landmarks) : List ℝ :=
  match landmarks 33, landmarks 133, landmarks 362,
        landmarks 263, landmarks 468, landmarks 473 with
  | some leftEyeOuterCorner, some leftEyeInnerCorner, some rightEyeOuterCorner,
      some rightEyeInnerCorner, some leftIrisCenter, some rightIrisCenter =>
    [leftIrisCenter.x - leftEyeOuterCorner.x,
     leftIrisCenter.y - leftEyeOuterCorner.y,
     rightIrisCenter.x - rightEyeOuterCorner.x,
     rightIrisCenter.y - rightEyeOuterCorner.y,
     euclideanDistance (leftEyeOuterCorner.x, leftEyeOuterCorner.y)
       (leftEyeInnerCorner.x, leftEyeInnerCorner.y),
     euclideanDistance (rightEyeOuterCorner.x, rightEyeOuterCorner.y)
       (rightEyeInnerCorner.x, rightEyeInnerCorner.y),
     leftIrisCenter.x,
     leftIrisCenter.y,
     rightIrisCenter.x,
     rightIrisCenter.y]
  | _, _, _, _, _, _ => List.replicate 10 0

/-- _trainModel: with no samples leave the model absent; otherwise store the
    mean per-axis offset target - gaze over all retained samples. -/
noncomputable def Calibrator.trainModel (c : Calibrator) : Calibrator :=
  if c.gazeData.length = 0 then { c with model := none }
  else
    let sumOffsetX := (c.gazeData.map fun d => d.target.1 - d.gaze.1).sum
    let sumOffsetY := (c.gazeData.map fun d => d.target.2 - d.gaze.2).sum
    { c with model := some ⟨sumOffsetX / (c.gazeData.length : ℝ),
                           sumOffsetY / (c.gazeData.length : ℝ)⟩ }

/-- finishCalibration(): leave the calibrating state and train. -/
noncomputable def Calibrator.finishCalibration (c : Calibrator) : Calibrator :=
  Calibrator.trainModel { c with isCalibrating := false }

/-- addGazeSample(faceLandmarks, screenGazePoint). -/
noncomputable def Calibrator.addGazeSample
    (c : Calibrator) (faceLandmarks : Landmarks) (screenGazePoint : Point) :
    Calibrator :=
  if c.isCalibrating = false then c
  else
    match c.calibrationTargets.get? c.currentCalibrationIndex with
    | none => c
    | some targetPoint =>
      let features := Calibrator.extractFeatures faceLandmarks
      let c1 := { c with
        gazeData := c.gazeData ++ [⟨features, screenGazePoint, targetPoint⟩],
        currentSamples := c.currentSamples + 1 }
      if c1.currentSamples ≥ c1.samplesPerPoint then
        let c2 := { c1 with currentCalibrationIndex := c1.currentCalibrationIndex + 1,
                            currentSamples := 0 }
        if c2.currentCalibrationIndex ≥ c2.calibrationTargets.length then
          c2.finishCalibration
        else c2
      else c1

/-- moveToNextCalibrationPoint(). -/
noncomputable def Calibrator.moveToNextCalibrationPoint (c : Calibrator) :
    Calibrator :=
  if c.isCalibrating = true ∧ c.currentCalibrationIndex < c.calibrationTargets.length then
    let c1 := { c with currentCalibrationIndex := c.currentCalibrationIndex + 1,
                       currentSamples := 0 }
    if c1.currentCalibrationIndex ≥ c1.calibrationTargets.length then
      c1.finishCalibration
    else c1
  else c

/-- predictGaze(faceLandmarks): absent model gives null; otherwise add the
    offset to feature positions 6 and 7 and clamp to the screen rectangle. -/
noncomputable def Calibrator.predictGaze
    (c : Calibrator) (faceLandmarks : Landmarks) : Option Point :=
  match c.model with
  | none => none
  | some model =>
    let features := Calibrator.extractFeatures faceLandmarks
    let predictedX := features.getD 6 0 + model.offsetX
    let predictedY := features.getD 7 0 + model.offsetY
    let clampedX := max 0 (min c.screenWidth predictedX)
    let clampedY := max 0 (min c.screenHeight predictedY)
    some (clampedX, clampedY)

/-- getCurrentCalibrationPoint(): the current target, absent past the end. -/
def Calibrator.getCurrentCalibrationPoint (c : Calibrator) : Option Point :=
  c.calibrationTargets.get? c.currentCalibrationIndex

/-- getCalibrationProgress(): 1 when not calibrating, else the fraction of
    collected samples. -/
noncomputable def Calibrator.getCalibrationProgress (c : Calibrator) : ℝ :=
  if c.isCalibrating = false then 1
  else
    let totalSamplesNeeded := c.calibrationTargets.length * c.samplesPerPoint
    let collectedSamples :=
      c.currentCalibrationIndex * c.samplesPerPoint + c.currentSamples
    (collectedSamples : ℝ) / (totalSamplesNeeded : ℝ)

/-- Operations a caller can perform on a Calibrator during one run. -/
inductive CalOp where
  | addSample (lms : Landmarks) (g : Point)
  | moveNext

/-- Run a list of calibration operations. -/
noncomputable def Calibrator.runOps (c : Calibrator) (ops : List CalOp) :
    Calibrator :=
  ops.foldl
    (fun a op =>
      match op with
      | CalOp.addSample lms g => a.addGazeSample lms g
      | CalOp.moveNext => a.moveToNextCalibrationPoint)
    c

/-- The per-frame pipeline output of EyeTracker.processLandmarks. -/
structure TrackOutput where
  gaze : Point
  isCalibrating : Bool
  currentCalibPoint : Option Point
  calibrationProgress : ℝ
  features : Metrics

/-- State of the main EyeTracker class. -/
structure EyeTracker where
  screenWidth : ℝ
  screenHeight : ℝ
  calibrator : Calibrator
  featureExtractor : EyeFeatureExtractor
  isCalibrating : Bool
  gaze : Point
  currentCalibPoint : Option Point
  calibrationProgress : ℝ

/-- The EyeTracker constructor: gaze defaults to the screen center. -/
noncomputable def EyeTracker.init (W H : ℝ) : EyeTracker :=
  ⟨W, H, Calibrator.init W H, EyeFeatureExtractor.init, false,
    (W / 2, H / 2), none, 0⟩

/-- EyeTracker.startCalibration(). -/
noncomputable def EyeTracker.startCalibration (t : EyeTracker) : EyeTracker :=
  let c := t.calibrator.startCalibration
  { t with isCalibrating := true, calibrator := c,
           featureExtractor := t.featureExtractor.reset,
           currentCalibPoint := c.getCurrentCalibrationPoint,
           calibrationProgress := c.getCalibrationProgress }

/-- EyeTracker.moveToNextCalibrationPoint(). -/
noncomputable def EyeTracker.moveToNextCalibrationPoint (t : EyeTracker) :
    EyeTracker :=
  let c := t.calibrator.moveToNextCalibrationPoint
  let t1 := { t with calibrator := c,
                     currentCalibPoint := c.getCurrentCalibrationPoint,
                     calibrationProgress := c.getCalibrationProgress }
  if t1.isCalibrating = false then { t1 with currentCalibPoint := none } else t1

/-- processLandmarks(landmarks, timestamp): null without both iris centers;
    otherwise raw gaze from the mean iris center scaled to the screen, the
    calibration branch, the (raw or predicted) gaze fed to the segmenter, and
    the per-frame result with fresh metrics. Mutation is modelled as
    result + new state. -/
noncomputable def EyeTracker.processLandmarks
    (t : EyeTracker) (landmarks : Landmarks) (timestamp : ℝ) :
    Option TrackOutput × EyeTracker :=
  match landmarks 468, landmarks 473 with
  | some leftIrisCenter, some rightIrisCenter =>
    let rawGazeX := (leftIrisCenter.x + rightIrisCenter.x) / 2
    let rawGazeY := (leftIrisCenter.y + rightIrisCenter.y) / 2
    let screenGazeX := rawGazeX * t.screenWidth
    let screenGazeY := rawGazeY * t.screenHeight
    let rawGazePoint : Point := (screenGazeX, screenGazeY)
    let t1 :=
      if t.isCalibrating then
        let c := t.calibrator.addGazeSample landmarks rawGazePoint
        { t with calibrator := c,
                 currentCalibPoint := c.getCurrentCalibrationPoint,
                 calibrationProgress := c.getCalibrationProgress,
                 isCalibrating := if c.isCalibrating then t.isCalibrating else false }
      else t
    -- let predictedGaze = rawGazePoint; if (model) predictedGaze = predictGaze(...)
    let predictedGaze : Option Point :=
      if t1.calibrator.model.isSome then t1.calibrator.predictGaze landmarks
      else some rawGazePoint
    let t2 :=
      match predictedGaze with
      | some g =>
        { t1 with gaze := g,
                  featureExtractor := t1.featureExtractor.processGaze g timestamp }
      | none => t1
    let r := t2.featureExtractor.getMetrics
    let t3 := { t2 with featureExtractor := r.2 }
    (some ⟨t3.gaze, t3.isCalibrating, t3.currentCalibPoint,
           t3.calibrationProgress, r.1⟩, t3)
  | _, _ => (none, t)

/-- Run a list of (landmarks, timestamp) frames through processLandmarks. -/
noncomputable def EyeTracker.runFrames
    (t : EyeTracker) (frames : List (Landmarks × ℝ)) : EyeTracker :=
  frames.foldl (fun a f => (a.processLandmarks f.1 f.2).2) t

/-- Both event invariants of the segmenter: every stored fixation meets the
    duration threshold and every stored saccade exceeds the distance
    threshold (the thresholds of the state itself). -/
def EventsOk (e : EyeFeatureExtractor) : Prop :=
  (∀ f ∈ e.fixations, e.fixationDuration ≤ f.duration) ∧
  (∀ x ∈ e.saccades, e.saccadeThreshold < x.distance)

/-- Invariant of the extractor as driven by the EyeTracker pipeline: the
    fixation list stays empty and the candidate field is JS-falsy (absent,
    or the literal timestamp 0, which `if` treats as absent). -/
def NoFixInv (e : EyeFeatureExtractor) : Prop :=
  e.fixations = [] ∧
  (e.lastFixationStart = none ∨ e.lastFixationStart = some 0) ∧
  e.fixationDuration = 100

/-- Structural invariant of Calibrator states reached during one run:
    default samplesPerPoint, the 25-target grid, and in-range counters
    while calibrating. -/
def CalInv (c : Calibrator) : Prop :=
  c.samplesPerPoint = 30 ∧ c.calibrationTargets.length = 25 ∧
  (c.isCalibrating = true →
    c.currentCalibrationIndex ≤ 24 ∧ c.currentSamples ≤ 29)

/-- Scenario A sample set: every grid target observed with gaze exactly
    target - (5,5), 30 samples per target. -/
noncomputable def scenarioAData (W H : ℝ) (feat : List ℝ) :
    List CalibrationSample :=
  (Calibrator.generateCalibrationTargets W H).flatMap fun tgt =>
    List.replicate 30 ⟨feat, (tgt.1 - 5, tgt.2 - 5), tgt⟩

/-- Scenario B gaze stream: (0,0) at t0, (5,5) at t0+50, (8,8) at t0+120. -/
noncomputable def scenarioBInputs (t0 : ℝ) : List (Point × ℝ) :=
  [((0, 0), t0), ((5, 5), t0 + 50), ((8, 8), t0 + 120)]

/-- A landmark list with every index absent. -/
def lmsAllNone : Landmarks := fun _ => none

/-- A landmark list carrying only the two iris centers, both at (1/2, 1/2). -/
noncomputable def lmsIris : Landmarks := fun i =>
  if i = 468 ∨ i = 473 then some ⟨1 / 2, 1 / 2, 0⟩ else none

/-- A freshly started calibration run of a 100 x 100 tracker. -/
noncomputable def trackerCalEx : EyeTracker :=
  (EyeTracker.init 100 100).startCalibration

/-- A 100 x 100 calibrator carrying a trained offset model (3, 4). -/
noncomputable def calWithModelEx : Calibrator :=
  { Calibrator.init 100 100 with model := some ⟨3, 4⟩ }

/-- A 100 x 100 calibrator holding a single retained sample. -/
noncomputable def calOneSampleEx : Calibrator :=
  { Calibrator.init 100 100 with gazeData := [⟨[], (1, 2), (4, 6)⟩] }

/-- The pipeline output of the first frame of a fresh 100 x 100 tracker fed
    iris centers at (1/2, 1/2) at timestamp 1. -/
noncomputable def firstFrameOut : TrackOutput :=
  ⟨(50, 50), false, none, 0, ⟨0, 0, 0, 0, 0, 0⟩⟩

/-! ### Helper lemmas -/

lemma euclideanDistance_nonneg (p q : Point) : 0 ≤ euclideanDistance p q :=
  Real.sqrt_nonneg _

lemma euclideanDistance_le (p q : Point) (b : ℝ) (hb : 0 ≤ b)
    (h : (q.1 - p.1) ^ 2 + (q.2 - p.2) ^ 2 ≤ b ^ 2) :
    euclideanDistance p q ≤ b :=
  (Real.sqrt_le_left hb).mpr h

lemma euclideanDistance_not_gt (p q : Point) (b : ℝ) (hb : 0 ≤ b)
    (h : (q.1 - p.1) ^ 2 + (q.2 - p.2) ^ 2 ≤ b ^ 2) :
    ¬ euclideanDistance p q > b :=
  not_lt.mpr (euclideanDistance_le p q b hb h)

lemma euclideanDistance_gt (p q : Point) (b : ℝ) (hb : 0 ≤ b)
    (h : b ^ 2 < (q.1 - p.1) ^ 2 + (q.2 - p.2) ^ 2) :
    euclideanDistance p q > b :=
  (Real.lt_sqrt hb).mpr h

lemma jsNumTruthy_none : ¬ jsNumTruthy none := fun h => h

lemma jsNumTruthy_some {t : ℝ} (h : t ≠ 0) : jsNumTruthy (some t) := h

lemma not_jsNumTruthy_some_zero : ¬ jsNumTruthy (some (0 : ℝ)) := fun h => h rfl

/-- The length of the generated calibration grid. -/
lemma generateCalibrationTargets_length (W H : ℝ) :
    (Calibrator.generateCalibrationTargets W H).length = 25 := by
  simp [Calibrator.generateCalibrationTargets, List.range_succ]

/-! ### Field-preservation lemmas for the segmenter operations -/

lemma endFixation_fieldsEq (s : EyeFeatureExtractor) (p : Point) (t : ℝ) :
    (s.endFixation p t).fixationRadius = s.fixationRadius ∧
    (s.endFixation p t).fixationDuration = s.fixationDuration ∧
    (s.endFixation p t).saccadeThreshold = s.saccadeThreshold ∧
    (s.endFixation p t).gazeHistory = s.gazeHistory ∧
    (s.endFixation p t).saccades = s.saccades ∧
    (s.endFixation p t).lastGazePoint = s.lastGazePoint ∧
    (s.endFixation p t).lastGazeTimestamp = s.lastGazeTimestamp ∧
    (s.endFixation p t).lastFixationStart = none ∧
    (s.endFixation p t).lastFixationPoint = none := by
  unfold EyeFeatureExtractor.endFixation
  rcases s.lastFixationStart with _ | fs
  · simp
  · simp
    split_ifs <;> simp

lemma endFixation_fixations_mem (s : EyeFeatureExtractor) (p : Point) (t : ℝ)
    (f : FixationEvent) (hf : f ∈ (s.endFixation p t).fixations) :
    f ∈ s.fixations ∨ s.fixationDuration ≤ f.duration := by
  rcases h : s.lastFixationStart with _ | fs
  · left
    simpa [EyeFeatureExtractor.endFixation, h] using hf
  · by_cases h0 : fs = 0
    · left
      simpa [EyeFeatureExtractor.endFixation, h, h0] using hf
    · by_cases hd : t - fs ≥ s.fixationDuration
      · have hf2 : f ∈ s.fixations ∨ f = ⟨p, t - fs, fs, t⟩ := by
          simpa [EyeFeatureExtractor.endFixation, h, h0, hd] using hf
        rcases hf2 with hf2 | hf2
        · exact Or.inl hf2
        · exact Or.inr (by rw [hf2]; exact hd)
      · left
        simpa [EyeFeatureExtractor.endFixation, h, h0, hd] using hf

lemma endFixation_fixations_short (s : EyeFeatureExtractor) (p : Point) (t : ℝ)
    (h : ∀ fs, s.lastFixationStart = some fs → fs ≠ 0 →
      ¬ (t - fs ≥ s.fixationDuration)) :
    (s.endFixation p t).fixations = s.fixations := by
  rcases hfs : s.lastFixationStart with _ | fs
  · simp [EyeFeatureExtractor.endFixation, hfs]
  · by_cases h0 : fs = 0
    · simp [EyeFeatureExtractor.endFixation, hfs, h0]
    · have hd := h fs hfs h0
      simp [EyeFeatureExtractor.endFixation, hfs, h0, hd]

@[simp] lemma jsNumTruthy_some_iff (t : ℝ) : jsNumTruthy (some t) ↔ t ≠ 0 :=
  Iff.rfl

@[simp] lemma jsNumTruthy_none_iff : jsNumTruthy none ↔ False :=
  iff_false_intro jsNumTruthy_none

@[simp] lemma endFixation_fixationRadius (s : EyeFeatureExtractor) (p : Point)
    (t : ℝ) : (s.endFixation p t).fixationRadius = s.fixationRadius :=
  (endFixation_fieldsEq s p t).1

@[simp] lemma endFixation_fixationDuration (s : EyeFeatureExtractor) (p : Point)
    (t : ℝ) : (s.endFixation p t).fixationDuration = s.fixationDuration :=
  (endFixation_fieldsEq s p t).2.1

@[simp] lemma endFixation_saccadeThreshold (s : EyeFeatureExtractor) (p : Point)
    (t : ℝ) : (s.endFixation p t).saccadeThreshold = s.saccadeThreshold :=
  (endFixation_fieldsEq s p t).2.2.1

@[simp] lemma endFixation_gazeHistory (s : EyeFeatureExtractor) (p : Point)
    (t : ℝ) : (s.endFixation p t).gazeHistory = s.gazeHistory :=
  (endFixation_fieldsEq s p t).2.2.2.1

@[simp] lemma endFixation_saccades (s : EyeFeatureExtractor) (p : Point)
    (t : ℝ) : (s.endFixation p t).saccades = s.saccades :=
  (endFixation_fieldsEq s p t).2.2.2.2.1

@[simp] lemma endFixation_lastGazePoint (s : EyeFeatureExtractor) (p : Point)
    (t : ℝ) : (s.endFixation p t).lastGazePoint = s.lastGazePoint :=
  (endFixation_fieldsEq s p t).2.2.2.2.2.1

@[simp] lemma endFixation_lastGazeTimestamp (s : EyeFeatureExtractor) (p : Point)
    (t : ℝ) : (s.endFixation p t).lastGazeTimestamp = s.lastGazeTimestamp :=
  (endFixation_fieldsEq s p t).2.2.2.2.2.2.1

@[simp] lemma endFixation_lastFixationStart (s : EyeFeatureExtractor) (p : Point)
    (t : ℝ) : (s.endFixation p t).lastFixationStart = none :=
  (endFixation_fieldsEq s p t).2.2.2.2.2.2.2.1

@[simp] lemma endFixation_lastFixationPoint (s : EyeFeatureExtractor) (p : Point)
    (t : ℝ) : (s.endFixation p t).lastFixationPoint = none :=
  (endFixation_fieldsEq s p t).2.2.2.2.2.2.2.2

lemma processGaze_fieldsEq (s : EyeFeatureExtractor) (p : Point) (t : ℝ) :
    (s.processGaze p t).fixationRadius = s.fixationRadius ∧
    (s.processGaze p t).fixationDuration = s.fixationDuration ∧
    (s.processGaze p t).saccadeThreshold = s.saccadeThreshold ∧
    (s.processGaze p t).gazeHistory = s.gazeHistory ++ [⟨p, t⟩] ∧
    (s.processGaze p t).lastGazePoint = some p ∧
    (s.processGaze p t).lastGazeTimestamp = some t := by
  unfold EyeFeatureExtractor.processGaze
  rcases h : s.lastGazePoint with _ | lp
  · simp [h]
  · rcases hfs : s.lastFixationStart with _ | fs
    · simp [h, hfs]
      split_ifs <;> simp
    · simp [h, hfs]
      split_ifs <;> simp

lemma processGaze_saccades_mem (s : EyeFeatureExtractor) (p : Point) (t : ℝ)
    (x : SaccadeEvent) (hx : x ∈ (s.processGaze p t).saccades) :
    x ∈ s.saccades ∨ s.saccadeThreshold < x.distance := by
  rcases h : s.lastGazePoint with _ | lp
  · left
    simpa [EyeFeatureExtractor.processGaze, h] using hx
  · by_cases hsac : euclideanDistance lp p > s.saccadeThreshold
    · have hx2 : x ∈ s.saccades ∨
          x = ⟨lp, p, euclideanDistance lp p, t - s.lastGazeTimestamp.getD 0⟩ := by
        simpa [EyeFeatureExtractor.processGaze, h, hsac,
          apply_ite EyeFeatureExtractor.saccades] using hx
      rcases hx2 with hx2 | hx2
      · exact Or.inl hx2
      · right
        rw [hx2]
        exact hsac
    · left
      rcases hfs : s.lastFixationStart with _ | fs
      · simpa [EyeFeatureExtractor.processGaze, h, hsac, hfs] using hx
      · by_cases h0 : fs = 0
        · simpa [EyeFeatureExtractor.processGaze, h, hsac, hfs, h0] using hx
        · by_cases hd : t - fs ≥ s.fixationDuration
          · simpa [EyeFeatureExtractor.processGaze, h, hsac, hfs, h0, hd,
              apply_ite EyeFeatureExtractor.saccades] using hx
          · simpa [EyeFeatureExtractor.processGaze, h, hsac, hfs, h0, hd] using hx

lemma processGaze_fixations_mem (s : EyeFeatureExtractor) (p : Point) (t : ℝ)
    (f : FixationEvent) (hf : f ∈ (s.processGaze p t).fixations) :
    f ∈ s.fixations ∨ s.fixationDuration ≤ f.duration := by
  rcases h : s.lastGazePoint with _ | lp
  · left
    simpa [EyeFeatureExtractor.processGaze, h] using hf
  · by_cases hsac : euclideanDistance lp p > s.saccadeThreshold
    · by_cases htr : jsNumTruthy s.lastFixationStart
      · simp [EyeFeatureExtractor.processGaze, h, hsac, htr] at hf
        rcases endFixation_fixations_mem _ _ _ f hf with h1 | h1
        · left
          simpa using h1
        · right
          simpa using h1
      · left
        simpa [EyeFeatureExtractor.processGaze, h, hsac, htr] using hf
    · rcases hfs : s.lastFixationStart with _ | fs
      · left
        simpa [EyeFeatureExtractor.processGaze, h, hsac, hfs] using hf
      · by_cases h0 : fs = 0
        · left
          simpa [EyeFeatureExtractor.processGaze, h, hsac, hfs, h0] using hf
        · by_cases hd : t - fs ≥ s.fixationDuration
          · by_cases hr :
              euclideanDistance (s.lastFixationPoint.getD 0) p ≤ s.fixationRadius
            · left
              simpa [EyeFeatureExtractor.processGaze, h, hsac, hfs, h0, hd, hr] using hf
            · simp [EyeFeatureExtractor.processGaze, h, hsac, hfs, h0, hd, hr] at hf
              rcases endFixation_fixations_mem _ _ _ f hf with h1 | h1
              · left
                simpa using h1
              · right
                simpa using h1
          · left
            simpa [EyeFeatureExtractor.processGaze, h, hsac, hfs, h0, hd] using hf

lemma flushOpenFixation_fieldsEq (s : EyeFeatureExtractor) :
    (s.flushOpenFixation).fixationRadius = s.fixationRadius ∧
    (s.flushOpenFixation).fixationDuration = s.fixationDuration ∧
    (s.flushOpenFixation).saccadeThreshold = s.saccadeThreshold ∧
    (s.flushOpenFixation).gazeHistory = s.gazeHistory ∧
    (s.flushOpenFixation).saccades = s.saccades := by
  unfold EyeFeatureExtractor.flushOpenFixation
  split
  · split_ifs <;> simp
  · simp

lemma flushOpenFixation_fixations_mem (s : EyeFeatureExtractor)
    (f : FixationEvent) (hf : f ∈ s.flushOpenFixation.fixations) :
    f ∈ s.fixations ∨ s.fixationDuration ≤ f.duration := by
  unfold EyeFeatureExtractor.flushOpenFixation at hf
  split at hf
  · split_ifs at hf
    · exact endFixation_fixations_mem _ _ _ f hf
    · exact Or.inl hf
  · exact Or.inl hf

lemma processGaze_EventsOk (s : EyeFeatureExtractor) (p : Point) (t : ℝ)
    (h : EventsOk s) : EventsOk (s.processGaze p t) := by
  obtain ⟨h1, h2⟩ := h
  constructor
  · intro f hf
    rw [(processGaze_fieldsEq s p t).2.1]
    rcases processGaze_fixations_mem s p t f hf with hm | hm
    · exact h1 f hm
    · exact hm
  · intro x hx
    rw [(processGaze_fieldsEq s p t).2.2.1]
    rcases processGaze_saccades_mem s p t x hx with hm | hm
    · exact h2 x hm
    · exact hm

lemma flushOpenFixation_EventsOk (s : EyeFeatureExtractor)
    (h : EventsOk s) : EventsOk s.flushOpenFixation := by
  obtain ⟨h1, h2⟩ := h
  constructor
  · intro f hf
    rw [(flushOpenFixation_fieldsEq s).2.1]
    rcases flushOpenFixation_fixations_mem s f hf with hm | hm
    · exact h1 f hm
    · exact hm
  · intro x hx
    rw [(flushOpenFixation_fieldsEq s).2.2.1]
    exact h2 x (by rwa [(flushOpenFixation_fieldsEq s).2.2.2.2] at hx)

lemma runGaze_cons (s : EyeFeatureExtractor) (a : Point × ℝ)
    (l : List (Point × ℝ)) :
    s.runGaze (a :: l) = (s.processGaze a.1 a.2).runGaze l := rfl

lemma runGaze_fieldsEq (inputs : List (Point × ℝ)) (s : EyeFeatureExtractor) :
    (s.runGaze inputs).fixationDuration = s.fixationDuration ∧
    (s.runGaze inputs).saccadeThreshold = s.saccadeThreshold := by
  induction inputs generalizing s with
  | nil => exact ⟨rfl, rfl⟩
  | cons a l ih =>
    rw [runGaze_cons]
    obtain ⟨e1, e2⟩ := ih (s.processGaze a.1 a.2)
    rw [e1, e2, (processGaze_fieldsEq s a.1 a.2).2.1,
      (processGaze_fieldsEq s a.1 a.2).2.2.1]
    exact ⟨rfl, rfl⟩

lemma runGaze_EventsOk (inputs : List (Point × ℝ)) (s : EyeFeatureExtractor)
    (h : EventsOk s) : EventsOk (s.runGaze inputs) := by
  induction inputs generalizing s with
  | nil => exact h
  | cons a l ih =>
    rw [runGaze_cons]
    exact ih _ (processGaze_EventsOk s a.1 a.2 h)

lemma init_EventsOk : EventsOk EyeFeatureExtractor.init := by
  constructor <;> simp [EyeFeatureExtractor.init]

/-- C5: for every sequence of processGaze calls on a fresh segmenter, every
FixationEvent ever appended has duration at least the default threshold 100,
and every SaccadeEvent ever appended has distance strictly above the default
threshold 30; both invariants also hold after the end-of-stream flush
performed by getMetrics. -/
theorem segmenter_event_invariants (inputs : List (Point × ℝ)) :
    (∀ f ∈ (EyeFeatureExtractor.init.runGaze inputs).fixations,
      (100 : ℝ) ≤ f.duration) ∧
    (∀ x ∈ (EyeFeatureExtractor.init.runGaze inputs).saccades,
      (30 : ℝ) < x.distance) ∧
    (∀ f ∈ ((EyeFeatureExtractor.init.runGaze inputs).getMetrics).2.fixations,
      (100 : ℝ) ≤ f.duration) ∧
    (∀ x ∈ ((EyeFeatureExtractor.init.runGaze inputs).getMetrics).2.saccades,
      (30 : ℝ) < x.distance) := by
  have hE := runGaze_EventsOk inputs EyeFeatureExtractor.init init_EventsOk
  have hT := runGaze_fieldsEq inputs EyeFeatureExtractor.init
  have hF := flushOpenFixation_EventsOk _ hE
  have hTF := flushOpenFixation_fieldsEq (EyeFeatureExtractor.init.runGaze inputs)
  refine ⟨?_, ?_, ?_, ?_⟩
  · intro f hf
    have := hE.1 f hf
    rwa [hT.1] at this
  · intro x hx
    have := hE.2 x hx
    rwa [hT.2] at this
  · intro f hf
    have hf2 : f ∈ (EyeFeatureExtractor.init.runGaze inputs).flushOpenFixation.fixations := hf
    have := hF.1 f hf2
    rwa [hTF.2.1, hT.1] at this
  · intro x hx
    have hx2 : x ∈ (EyeFeatureExtractor.init.runGaze inputs).flushOpenFixation.saccades := hx
    have := hF.2 x hx2
    rwa [hTF.2.2.1, hT.2] at this

/-- Witness for C5: a concrete run whose flushed state holds one fixation of
duration 150, to which the invariant theorem applies. -/
theorem segmenter_event_invariants_witness :
    ((EyeFeatureExtractor.init.runGaze
        [((0, 0), 10), ((0, 0), 60), ((0, 0), 210)]).getMetrics).2.fixations
      = [⟨(0, 0), 150, 60, 210⟩] ∧
    (100 : ℝ) ≤ (FixationEvent.mk (0, 0) 150 60 210).duration := by
  have h1 : EyeFeatureExtractor.init.processGaze (0, 0) 10 =
      ⟨50, 100, 30, [⟨(0, 0), 10⟩], [], [], some (0, 0), some 10, none, none⟩ := rfl
  have h2 : (EyeFeatureExtractor.mk 50 100 30 [⟨(0, 0), 10⟩] [] []
        (some (0, 0)) (some 10) none none).processGaze (0, 0) 60 =
      ⟨50, 100, 30, [⟨(0, 0), 10⟩, ⟨(0, 0), 60⟩], [], [],
        some (0, 0), some 60, some 60, some (0, 0)⟩ := by
    norm_num [EyeFeatureExtractor.processGaze, euclideanDistance]
  have h3 : (EyeFeatureExtractor.mk 50 100 30 [⟨(0, 0), 10⟩, ⟨(0, 0), 60⟩] [] []
        (some (0, 0)) (some 60) (some 60) (some (0, 0))).processGaze (0, 0) 210 =
      ⟨50, 100, 30, [⟨(0, 0), 10⟩, ⟨(0, 0), 60⟩, ⟨(0, 0), 210⟩], [], [],
        some (0, 0), some 210, some 60, some (0, 0)⟩ := by
    norm_num [EyeFeatureExtractor.processGaze, euclideanDistance]
  have h4 : (EyeFeatureExtractor.mk 50 100 30
        [⟨(0, 0), 10⟩, ⟨(0, 0), 60⟩, ⟨(0, 0), 210⟩] [] []
        (some (0, 0)) (some 210) (some 60) (some (0, 0))).flushOpenFixation =
      ⟨50, 100, 30, [⟨(0, 0), 10⟩, ⟨(0, 0), 60⟩, ⟨(0, 0), 210⟩],
        [⟨(0, 0), 150, 60, 210⟩], [], some (0, 0), some 210, none, none⟩ := by
    norm_num [EyeFeatureExtractor.flushOpenFixation, EyeFeatureExtractor.endFixation]
  have heval : ((EyeFeatureExtractor.init.runGaze
      [((0, 0), 10), ((0, 0), 60), ((0, 0), 210)]).getMetrics).2.fixations
      = [⟨(0, 0), 150, 60, 210⟩] := by
    show (((EyeFeatureExtractor.init.processGaze (0, 0) 10).processGaze (0, 0) 60
      ).processGaze (0, 0) 210).flushOpenFixation.fixations = _
    rw [h1, h2, h3, h4]
  refine ⟨heval, ?_⟩
  exact (segmenter_event_invariants
    [((0, 0), 10), ((0, 0), 60), ((0, 0), 210)]).2.2.1
    ⟨(0, 0), 150, 60, 210⟩ (by rw [heval]; exact List.mem_singleton.mpr rfl)

/-- C1 counterexample: for the Scenario B stream at t0 = 0, after the
getMetrics flush the fixation list is empty — not the single fixation of
duration 120 the claim asserts (the candidate only opens at the second
sample, so its flushed duration is 70 < 100 and it is discarded). -/
theorem scenarioB_cex :
    ((EyeFeatureExtractor.init.runGaze (scenarioBInputs 0)).getMetrics).2.fixations
      = [] ∧
    ((EyeFeatureExtractor.init.runGaze
        (scenarioBInputs 0)).getMetrics).2.fixations.length ≠ 1 := by
  have hs1 : ¬ (30 : ℝ) < Real.sqrt 50 :=
    not_lt.mpr ((Real.sqrt_le_left (by norm_num)).mpr (by norm_num))
  have hs2 : ¬ (30 : ℝ) < Real.sqrt 18 :=
    not_lt.mpr ((Real.sqrt_le_left (by norm_num)).mpr (by norm_num))
  have hstate : EyeFeatureExtractor.init.runGaze (scenarioBInputs 0) =
      ⟨50, 100, 30, [⟨(0, 0), 0⟩, ⟨(5, 5), 50⟩, ⟨(8, 8), 120⟩], [], [],
        some (8, 8), some 120, some 50, some (5, 5)⟩ := by
    show ((EyeFeatureExtractor.init.processGaze (0, 0) 0).processGaze (5, 5)
      (0 + 50)).processGaze (8, 8) (0 + 120) = _
    norm_num [EyeFeatureExtractor.init, EyeFeatureExtractor.processGaze,
      euclideanDistance, hs1, hs2]
  have hflush : (EyeFeatureExtractor.mk 50 100 30
        [⟨(0, 0), 0⟩, ⟨(5, 5), 50⟩, ⟨(8, 8), 120⟩] [] []
        (some (8, 8)) (some 120) (some 50) (some (5, 5))).flushOpenFixation =
      ⟨50, 100, 30, [⟨(0, 0), 0⟩, ⟨(5, 5), 50⟩, ⟨(8, 8), 120⟩], [], [],
        some (8, 8), some 120, none, none⟩ := by
    norm_num [EyeFeatureExtractor.flushOpenFixation, EyeFeatureExtractor.endFixation]
  constructor
  · show (EyeFeatureExtractor.init.runGaze
      (scenarioBInputs 0)).flushOpenFixation.fixations = []
    rw [hstate, hflush]
  · show (EyeFeatureExtractor.init.runGaze
      (scenarioBInputs 0)).flushOpenFixation.fixations.length ≠ 1
    rw [hstate, hflush]
    norm_num

/-- C1 amended: for the Scenario B stream at any t0 with default thresholds,
processGaze emits no SaccadeEvent (all distances below 30), and after the
getMetrics end-of-stream flush there is NO FixationEvent at all: the
candidate only opens at the second sample t0+50, so the flushed duration is
70 < 100 and the candidate is discarded. -/
theorem scenarioB_no_saccade_no_fixation (t0 : ℝ) :
    ((EyeFeatureExtractor.init.runGaze (scenarioBInputs t0)).getMetrics).2.saccades
      = [] ∧
    ((EyeFeatureExtractor.init.runGaze (scenarioBInputs t0)).getMetrics).2.fixations
      = [] ∧
    ((EyeFeatureExtractor.init.runGaze (scenarioBInputs t0)).getMetrics).1.fixationCount
      = 0 := by
  have hs1 : ¬ (30 : ℝ) < Real.sqrt 50 :=
    not_lt.mpr ((Real.sqrt_le_left (by norm_num)).mpr (by norm_num))
  have hs2 : ¬ (30 : ℝ) < Real.sqrt 18 :=
    not_lt.mpr ((Real.sqrt_le_left (by norm_num)).mpr (by norm_num))
  have hsf : ((EyeFeatureExtractor.init.runGaze
        (scenarioBInputs t0)).flushOpenFixation).saccades = [] ∧
      ((EyeFeatureExtractor.init.runGaze
        (scenarioBInputs t0)).flushOpenFixation).fixations = [] := by
    by_cases h50 : t0 + 50 = 0
    · have hstate : EyeFeatureExtractor.init.runGaze (scenarioBInputs t0) =
          ⟨50, 100, 30, [⟨(0, 0), t0⟩, ⟨(5, 5), t0 + 50⟩, ⟨(8, 8), t0 + 120⟩],
            [], [], some (8, 8), some (t0 + 120), some (t0 + 120), some (8, 8)⟩ := by
        show ((EyeFeatureExtractor.init.processGaze (0, 0) t0).processGaze (5, 5)
          (t0 + 50)).processGaze (8, 8) (t0 + 120) = _
        norm_num [EyeFeatureExtractor.init, EyeFeatureExtractor.processGaze,
          euclideanDistance, hs1, hs2, h50]
      have h120 : t0 + 120 ≠ 0 := by intro hn; rw [show t0 = -50 by linarith] at hn; norm_num at hn
      have hz : ¬ ((100 : ℝ) ≤ t0 + 120 - (t0 + 120)) := by push_neg; linarith
      have hflush : (EyeFeatureExtractor.mk 50 100 30
            [⟨(0, 0), t0⟩, ⟨(5, 5), t0 + 50⟩, ⟨(8, 8), t0 + 120⟩] [] []
            (some (8, 8)) (some (t0 + 120)) (some (t0 + 120))
            (some (8, 8))).flushOpenFixation =
          ⟨50, 100, 30, [⟨(0, 0), t0⟩, ⟨(5, 5), t0 + 50⟩, ⟨(8, 8), t0 + 120⟩],
            [], [], some (8, 8), some (t0 + 120), none, none⟩ := by
        norm_num [EyeFeatureExtractor.flushOpenFixation,
          EyeFeatureExtractor.endFixation, h120]
      rw [hstate, hflush]
      exact ⟨rfl, rfl⟩
    · have hlt : ¬ ((100 : ℝ) ≤ t0 + 120 - (t0 + 50)) := by push_neg; linarith
      have hstate : EyeFeatureExtractor.init.runGaze (scenarioBInputs t0) =
          ⟨50, 100, 30, [⟨(0, 0), t0⟩, ⟨(5, 5), t0 + 50⟩, ⟨(8, 8), t0 + 120⟩],
            [], [], some (8, 8), some (t0 + 120), some (t0 + 50), some (5, 5)⟩ := by
        show ((EyeFeatureExtractor.init.processGaze (0, 0) t0).processGaze (5, 5)
          (t0 + 50)).processGaze (8, 8) (t0 + 120) = _
        norm_num [EyeFeatureExtractor.init, EyeFeatureExtractor.processGaze,
          euclideanDistance, hs1, hs2, h50, hlt]
      by_cases h120 : t0 + 120 = 0
      · have hflush : (EyeFeatureExtractor.mk 50 100 30
              [⟨(0, 0), t0⟩, ⟨(5, 5), t0 + 50⟩, ⟨(8, 8), t0 + 120⟩] [] []
              (some (8, 8)) (some (t0 + 120)) (some (t0 + 50))
              (some (5, 5))).flushOpenFixation =
            ⟨50, 100, 30, [⟨(0, 0), t0⟩, ⟨(5, 5), t0 + 50⟩, ⟨(8, 8), t0 + 120⟩],
              [], [], some (8, 8), some (t0 + 120), some (t0 + 50), some (5, 5)⟩ := by
          simp [EyeFeatureExtractor.flushOpenFixation, h120]
        rw [hstate, hflush]
        exact ⟨rfl, rfl⟩
      · have hflush : (EyeFeatureExtractor.mk 50 100 30
              [⟨(0, 0), t0⟩, ⟨(5, 5), t0 + 50⟩, ⟨(8, 8), t0 + 120⟩] [] []
              (some (8, 8)) (some (t0 + 120)) (some (t0 + 50))
              (some (5, 5))).flushOpenFixation =
            ⟨50, 100, 30, [⟨(0, 0), t0⟩, ⟨(5, 5), t0 + 50⟩, ⟨(8, 8), t0 + 120⟩],
              [], [], some (8, 8), some (t0 + 120), none, none⟩ := by
          norm_num [EyeFeatureExtractor.flushOpenFixation,
            EyeFeatureExtractor.endFixation, h50, h120]
        rw [hstate, hflush]
        exact ⟨rfl, rfl⟩
  refine ⟨hsf.1, hsf.2, ?_⟩
  show ((EyeFeatureExtractor.init.runGaze
    (scenarioBInputs t0)).flushOpenFixation).fixations.length = 0
  rw [hsf.2]
  rfl

lemma processGaze_noFix (s : EyeFeatureExtractor) (p : Point) (t : ℝ)
    (h1 : s.lastFixationStart = none ∨ s.lastFixationStart = some 0) :
    (s.processGaze p t).fixations = s.fixations ∧
    ((s.processGaze p t).lastFixationStart = none ∨
      (s.processGaze p t).lastFixationStart = some 0 ∨
      (s.processGaze p t).lastFixationStart = some t) := by
  have hnt : ¬ jsNumTruthy s.lastFixationStart := by
    rcases h1 with h1 | h1 <;> simp [h1]
  rcases h : s.lastGazePoint with _ | lp
  · constructor
    · simp [EyeFeatureExtractor.processGaze, h]
    · have he : (s.processGaze p t).lastFixationStart = s.lastFixationStart := by
        simp [EyeFeatureExtractor.processGaze, h]
      rw [he]
      rcases h1 with h1 | h1
      · exact Or.inl h1
      · exact Or.inr (Or.inl h1)
  · by_cases hsac : euclideanDistance lp p > s.saccadeThreshold
    · constructor
      · simp [EyeFeatureExtractor.processGaze, h, hsac, hnt]
      · left
        simp [EyeFeatureExtractor.processGaze, h, hsac, hnt]
    · constructor
      · simp [EyeFeatureExtractor.processGaze, h, hsac, hnt]
      · right
        right
        simp [EyeFeatureExtractor.processGaze, h, hsac, hnt]

lemma flush_noFix_aux (e : EyeFeatureExtractor) (p : Point) (t : ℝ)
    (hfix : e.fixations = []) (hdur : e.fixationDuration = 100)
    (hp : e.lastGazePoint = some p) (hts : e.lastGazeTimestamp = some t)
    (hc : e.lastFixationStart = none ∨ e.lastFixationStart = some 0 ∨
      e.lastFixationStart = some t) :
    NoFixInv e.flushOpenFixation := by
  rcases hc with hc | hc | hc
  · have hid : e.flushOpenFixation = e := by
      simp [EyeFeatureExtractor.flushOpenFixation, hc]
    rw [hid]
    exact ⟨hfix, Or.inl hc, hdur⟩
  · have hid : e.flushOpenFixation = e := by
      simp [EyeFeatureExtractor.flushOpenFixation, hc, hp, hts]
    rw [hid]
    exact ⟨hfix, Or.inr hc, hdur⟩
  · by_cases ht0 : t = 0
    · have hid : e.flushOpenFixation = e := by
        simp [EyeFeatureExtractor.flushOpenFixation, hc, hp, hts, ht0]
      rw [hid]
      refine ⟨hfix, Or.inr ?_, hdur⟩
      rw [hc, ht0]
    · have hid : e.flushOpenFixation = e.endFixation p t := by
        simp [EyeFeatureExtractor.flushOpenFixation, hc, hp, hts, ht0]
      have hfx : (e.endFixation p t).fixations = e.fixations := by
        apply endFixation_fixations_short
        intro fs hfs h0
        rw [hc] at hfs
        injection hfs with hfs
        rw [← hfs, hdur]
        norm_num
      rw [hid]
      exact ⟨by rw [hfx, hfix], Or.inl (endFixation_lastFixationStart e p t),
        by rw [endFixation_fixationDuration, hdur]⟩

lemma frame_noFix (s : EyeFeatureExtractor) (p : Point) (t : ℝ)
    (hInv : NoFixInv s) : NoFixInv ((s.processGaze p t).flushOpenFixation) := by
  obtain ⟨hfix, hlfs, hdur⟩ := hInv
  obtain ⟨hfix2, hlfs2⟩ := processGaze_noFix s p t hlfs
  refine flush_noFix_aux _ p t ?_ ?_ ?_ ?_ hlfs2
  · rw [hfix2, hfix]
  · rw [(processGaze_fieldsEq s p t).2.1, hdur]
  · exact (processGaze_fieldsEq s p t).2.2.2.2.1
  · exact (processGaze_fieldsEq s p t).2.2.2.2.2

lemma processLandmarks_extractor_eq (t : EyeTracker) (lms : Landmarks) (ts : ℝ)
    (li ri : Landmark) (h468 : lms 468 = some li) (h473 : lms 473 = some ri) :
    ∃ g : Point, (t.processLandmarks lms ts).2.featureExtractor
      = (t.featureExtractor.processGaze g ts).flushOpenFixation := by
  cases hcal : t.isCalibrating
  · rcases hmod : t.calibrator.model with _ | m
    · refine ⟨((li.x + ri.x) / 2 * t.screenWidth,
        (li.y + ri.y) / 2 * t.screenHeight), ?_⟩
      simp [EyeTracker.processLandmarks, h468, h473, hcal, hmod,
        EyeFeatureExtractor.getMetrics]
    · refine ⟨(max 0 (min t.calibrator.screenWidth
          ((Calibrator.extractFeatures lms).getD 6 0 + m.offsetX)),
        max 0 (min t.calibrator.screenHeight
          ((Calibrator.extractFeatures lms).getD 7 0 + m.offsetY))), ?_⟩
      simp [EyeTracker.processLandmarks, h468, h473, hcal, hmod,
        Calibrator.predictGaze, EyeFeatureExtractor.getMetrics]
  · rcases hmod : (t.calibrator.addGazeSample lms
        ((li.x + ri.x) / 2 * t.screenWidth,
          (li.y + ri.y) / 2 * t.screenHeight)).model with _ | m
    · refine ⟨((li.x + ri.x) / 2 * t.screenWidth,
        (li.y + ri.y) / 2 * t.screenHeight), ?_⟩
      simp [EyeTracker.processLandmarks, h468, h473, hcal, hmod,
        EyeFeatureExtractor.getMetrics]
    · refine ⟨(max 0 (min (t.calibrator.addGazeSample lms
            ((li.x + ri.x) / 2 * t.screenWidth,
              (li.y + ri.y) / 2 * t.screenHeight)).screenWidth
          ((Calibrator.extractFeatures lms).getD 6 0 + m.offsetX)),
        max 0 (min (t.calibrator.addGazeSample lms
            ((li.x + ri.x) / 2 * t.screenWidth,
              (li.y + ri.y) / 2 * t.screenHeight)).screenHeight
          ((Calibrator.extractFeatures lms).getD 7 0 + m.offsetY))), ?_⟩
      simp [EyeTracker.processLandmarks, h468, h473, hcal, hmod,
        Calibrator.predictGaze, EyeFeatureExtractor.getMetrics]

lemma processLandmarks_out_features (t : EyeTracker) (lms : Landmarks) (ts : ℝ)
    (out : TrackOutput) (hout : (t.processLandmarks lms ts).1 = some out) :
    out.features = (t.processLandmarks lms ts).2.featureExtractor.computeMetrics := by
  rcases h468 : lms 468 with _ | li
  · simp [EyeTracker.processLandmarks, h468] at hout
  · rcases h473 : lms 473 with _ | ri
    · simp [EyeTracker.processLandmarks, h468, h473] at hout
    · simp only [EyeTracker.processLandmarks, h468, h473,
        EyeFeatureExtractor.getMetrics, Option.some.injEq] at hout ⊢
      rw [← hout]

lemma computeMetrics_noFix (e : EyeFeatureExtractor) (h : e.fixations = []) :
    e.computeMetrics.fixationCount = 0 ∧ e.computeMetrics.dwellTime = 0 ∧
    e.computeMetrics.refixationRatio = 0 := by
  refine ⟨?_, ?_, ?_⟩ <;> simp [EyeFeatureExtractor.computeMetrics, h]

lemma processLandmarks_noFix (t : EyeTracker) (lms : Landmarks) (ts : ℝ)
    (hInv : NoFixInv t.featureExtractor) :
    NoFixInv ((t.processLandmarks lms ts).2.featureExtractor) ∧
    ∀ out, (t.processLandmarks lms ts).1 = some out →
      out.features.fixationCount = 0 ∧ out.features.dwellTime = 0 ∧
      out.features.refixationRatio = 0 := by
  rcases h468 : lms 468 with _ | li
  · refine ⟨?_, ?_⟩
    · simpa [EyeTracker.processLandmarks, h468] using hInv
    · intro out hout
      simp [EyeTracker.processLandmarks, h468] at hout
  · rcases h473 : lms 473 with _ | ri
    · refine ⟨?_, ?_⟩
      · simpa [EyeTracker.processLandmarks, h468, h473] using hInv
      · intro out hout
        simp [EyeTracker.processLandmarks, h468, h473] at hout
    · obtain ⟨g, hg⟩ := processLandmarks_extractor_eq t lms ts li ri h468 h473
      have hN : NoFixInv ((t.processLandmarks lms ts).2.featureExtractor) := by
        rw [hg]
        exact frame_noFix _ g ts hInv
      refine ⟨hN, ?_⟩
      intro out hout
      rw [processLandmarks_out_features t lms ts out hout]
      exact computeMetrics_noFix _ hN.1

lemma runFrames_cons (t : EyeTracker) (f : Landmarks × ℝ)
    (l : List (Landmarks × ℝ)) :
    t.runFrames (f :: l) = ((t.processLandmarks f.1 f.2).2).runFrames l := rfl

lemma init_noFix (W H : ℝ) : NoFixInv (EyeTracker.init W H).featureExtractor :=
  ⟨rfl, Or.inl rfl, rfl⟩

lemma runFrames_noFix (frames : List (Landmarks × ℝ)) (t : EyeTracker)
    (hInv : NoFixInv t.featureExtractor) :
    NoFixInv ((t.runFrames frames).featureExtractor) := by
  induction frames generalizing t with
  | nil => exact hInv
  | cons f l ih =>
    rw [runFrames_cons]
    exact ih _ (processLandmarks_noFix t f.1 f.2 hInv).1

/-- C2: driving a fresh EyeTracker through any sequence of processLandmarks
calls never emits a FixationEvent — the per-frame getMetrics call finalizes
and clears the open candidate with duration 0 — so the fixation list stays
empty and every returned metrics object has fixationCount 0, dwellTime 0
and refixationRatio 0. -/
theorem pipeline_never_emits_fixations (W H : ℝ)
    (frames : List (Landmarks × ℝ)) :
    ((EyeTracker.init W H).runFrames frames).featureExtractor.fixations = [] ∧
    ∀ lms ts out,
      (((EyeTracker.init W H).runFrames frames).processLandmarks lms ts).1
        = some out →
      out.features.fixationCount = 0 ∧ out.features.dwellTime = 0 ∧
      out.features.refixationRatio = 0 := by
  have hInv := runFrames_noFix frames (EyeTracker.init W H) (init_noFix W H)
  exact ⟨hInv.1, fun lms ts out hout =>
    (processLandmarks_noFix _ lms ts hInv).2 out hout⟩

/-- Witness for C2: the first frame of a fresh 100 x 100 tracker produces a
concrete output whose fixation metrics the theorem forces to zero. -/
theorem pipeline_never_emits_fixations_witness :
    ((EyeTracker.init 100 100).processLandmarks lmsIris 1).1 = some firstFrameOut ∧
    firstFrameOut.features.fixationCount = 0 ∧
    firstFrameOut.features.dwellTime = 0 ∧
    firstFrameOut.features.refixationRatio = 0 := by
  have heval : ((EyeTracker.init 100 100).processLandmarks lmsIris 1).1
      = some firstFrameOut := by
    norm_num [EyeTracker.processLandmarks, EyeTracker.init, Calibrator.init,
      EyeFeatureExtractor.init, lmsIris, firstFrameOut,
      EyeFeatureExtractor.processGaze, EyeFeatureExtractor.getMetrics,
      EyeFeatureExtractor.flushOpenFixation, EyeFeatureExtractor.computeMetrics]
  obtain ⟨hc, hd, hr⟩ :=
    (pipeline_never_emits_fixations 100 100 []).2 lmsIris 1 firstFrameOut heval
  exact ⟨heval, hc, hd, hr⟩

/-- C3 counterexample: on a freshly started calibration run, one frame with
both iris centers present changes the Segmenter state — its gaze history
grows from 0 to 1 entries — because processLandmarks always feeds the (raw,
while no model exists) gaze point to processGaze, calibrating or not. -/
theorem calibrating_frame_changes_segmenter_cex :
    trackerCalEx.isCalibrating = true ∧
    trackerCalEx.featureExtractor.gazeHistory.length = 0 ∧
    ((trackerCalEx.processLandmarks lmsIris 1).2).featureExtractor.gazeHistory.length
      = 1 := by
  refine ⟨rfl, rfl, ?_⟩
  obtain ⟨g, hg⟩ := processLandmarks_extractor_eq trackerCalEx lmsIris 1
    ⟨1 / 2, 1 / 2, 0⟩ ⟨1 / 2, 1 / 2, 0⟩ (by norm_num [lmsIris]) (by norm_num [lmsIris])
  rw [hg, (flushOpenFixation_fieldsEq _).2.2.2.1,
    (processGaze_fieldsEq _ _ _).2.2.2.1]
  simp [trackerCalEx, EyeTracker.init, EyeTracker.startCalibration,
    EyeFeatureExtractor.reset, EyeFeatureExtractor.init]

/-- C3 amended: a frame whose landmark list carries both iris centers always
feeds the Segmenter — including every frame processed while isCalibrating
holds, where the sample also feeds the Calibrator — so the Segmenter gaze
history grows by exactly one entry on every such frame. -/
theorem segmenter_fed_every_frame (t : EyeTracker) (lms : Landmarks) (ts : ℝ)
    (li ri : Landmark) (h468 : lms 468 = some li) (h473 : lms 473 = some ri) :
    ((t.processLandmarks lms ts).2).featureExtractor.gazeHistory.length
      = t.featureExtractor.gazeHistory.length + 1 := by
  obtain ⟨g, hg⟩ := processLandmarks_extractor_eq t lms ts li ri h468 h473
  rw [hg, (flushOpenFixation_fieldsEq _).2.2.2.1,
    (processGaze_fieldsEq _ _ _).2.2.2.1]
  simp

/-- Witness for C3: the amended theorem applied to the concrete calibrating
tracker and iris-only landmark list. -/
theorem segmenter_fed_every_frame_witness :
    ((trackerCalEx.processLandmarks lmsIris 1).2).featureExtractor.gazeHistory.length
      = trackerCalEx.featureExtractor.gazeHistory.length + 1 :=
  segmenter_fed_every_frame trackerCalEx lmsIris 1 ⟨1 / 2, 1 / 2, 0⟩
    ⟨1 / 2, 1 / 2, 0⟩ (by norm_num [lmsIris]) (by norm_num [lmsIris])

lemma generateCalibrationTargets_formula (W H : ℝ) :
    Calibrator.generateCalibrationTargets W H =
      (List.range 5).flatMap fun r : ℕ => (List.range 5).map fun c : ℕ =>
        (((c : ℝ) + 1) * W / 6, ((r : ℝ) + 1) * H / 6) := by
  simp only [Calibrator.generateCalibrationTargets]
  norm_num [mul_div_assoc]

lemma gridCoord_bounds (k : ℕ) (hk : k < 5) (W : ℝ) (hW : 0 < W) :
    0 < ((k : ℝ) + 1) * W / 6 ∧ ((k : ℝ) + 1) * W / 6 < W := by
  have hk5 : ((k : ℝ) + 1) ≤ 5 := by
    have hk4 : (k : ℝ) ≤ 4 := by exact_mod_cast Nat.lt_succ_iff.mp hk
    linarith
  have h6 : (0 : ℝ) < W / 6 := by positivity
  have hmul : ((k : ℝ) + 1) * (W / 6) ≤ 5 * (W / 6) :=
    mul_le_mul_of_nonneg_right hk5 h6.le
  have hW6 : W = 6 * (W / 6) := by ring
  constructor
  · positivity
  · rw [mul_div_assoc]
    linarith

/-- C9: for any screen dimensions W, H the generated calibration grid has
exactly 25 points, the point at row r, column c being
((c+1)*W/6, (r+1)*H/6) for r, c in 0..4, and for positive dimensions every
point lies strictly inside (0,W) x (0,H). -/
theorem calibration_grid_invariant (W H : ℝ) (hW : 0 < W) (hH : 0 < H) :
    (Calibrator.generateCalibrationTargets W H).length = 25 ∧
    Calibrator.generateCalibrationTargets W H =
      ((List.range 5).flatMap fun r : ℕ => (List.range 5).map fun c : ℕ =>
        (((c : ℝ) + 1) * W / 6, ((r : ℝ) + 1) * H / 6)) ∧
    ∀ p ∈ Calibrator.generateCalibrationTargets W H,
      0 < p.1 ∧ p.1 < W ∧ 0 < p.2 ∧ p.2 < H := by
  refine ⟨generateCalibrationTargets_length W H,
    generateCalibrationTargets_formula W H, ?_⟩
  intro p hp
  rw [generateCalibrationTargets_formula] at hp
  simp only [List.mem_flatMap, List.mem_map, List.mem_range] at hp
  obtain ⟨r, hr, c, hc, rfl⟩ := hp
  obtain ⟨hc1, hc2⟩ := gridCoord_bounds c hc W hW
  obtain ⟨hr1, hr2⟩ := gridCoord_bounds r hr H hH
  exact ⟨hc1, hc2, hr1, hr2⟩

/-- Witness for C9: the grid for a 640 x 480 screen, with the bounds checked
at the first grid point. -/
theorem calibration_grid_invariant_witness :
    (Calibrator.generateCalibrationTargets 640 480).length = 25 ∧
    (0 < ((0 : ℝ) + 1) * 640 / 6 ∧ ((0 : ℝ) + 1) * 640 / 6 < 640 ∧
      0 < ((0 : ℝ) + 1) * 480 / 6 ∧ ((0 : ℝ) + 1) * 480 / 6 < 480) := by
  have h := calibration_grid_invariant 640 480 (by norm_num) (by norm_num)
  refine ⟨h.1, ?_⟩
  have hmem : ((((0 : ℕ) : ℝ) + 1) * 640 / 6, (((0 : ℕ) : ℝ) + 1) * 480 / 6)
      ∈ Calibrator.generateCalibrationTargets 640 480 := by
    rw [h.2.1]
    refine List.mem_flatMap.mpr ⟨0, by simp, List.mem_map.mpr ⟨0, by simp, rfl⟩⟩
  have := h.2.2 _ hmem
  simpa using this

/-- C10: feature extraction is total and fixed-length: with any required eye
landmark (indices 33, 133, 362, 263, 468, 473) absent it returns the
all-zero vector of length 10, and with all present it returns the ten
scalars (per-eye iris-to-outer-corner offsets, per-eye eye widths, raw iris
centers); in every case the result has length 10. -/
theorem feature_extraction_total (lms : Landmarks) :
    (Calibrator.extractFeatures lms).length = 10 ∧
    ((lms 33 = none ∨ lms 133 = none ∨ lms 362 = none ∨ lms 263 = none ∨
        lms 468 = none ∨ lms 473 = none) →
      Calibrator.extractFeatures lms = List.replicate 10 0) ∧
    (∀ leo lei reo rei lic ric,
      lms 33 = some leo → lms 133 = some lei → lms 362 = some reo →
      lms 263 = some rei → lms 468 = some lic → lms 473 = some ric →
      Calibrator.extractFeatures lms =
        [lic.x - leo.x, lic.y - leo.y, ric.x - reo.x, ric.y - reo.y,
          euclideanDistance (leo.x, leo.y) (lei.x, lei.y),
          euclideanDistance (reo.x, reo.y) (rei.x, rei.y),
          lic.x, lic.y, ric.x, ric.y]) := by
  refine ⟨?_, ?_, ?_⟩
  · rcases h1 : lms 33 with _ | leo <;> rcases h2 : lms 133 with _ | lei <;>
      rcases h3 : lms 362 with _ | reo <;> rcases h4 : lms 263 with _ | rei <;>
      rcases h5 : lms 468 with _ | lic <;> rcases h6 : lms 473 with _ | ric <;>
      simp [Calibrator.extractFeatures, h1, h2, h3, h4, h5, h6]
  · intro hmiss
    rcases h1 : lms 33 with _ | leo <;> rcases h2 : lms 133 with _ | lei <;>
      rcases h3 : lms 362 with _ | reo <;> rcases h4 : lms 263 with _ | rei <;>
      rcases h5 : lms 468 with _ | lic <;> rcases h6 : lms 473 with _ | ric <;>
      simp_all [Calibrator.extractFeatures]
  · intro leo lei reo rei lic ric h1 h2 h3 h4 h5 h6
    simp [Calibrator.extractFeatures, h1, h2, h3, h4, h5, h6]

/-- Witness for C10: an all-absent landmark list degrades to the zero vector,
and the iris-only landmark list still yields a length-10 vector. -/
theorem feature_extraction_total_witness :
    Calibrator.extractFeatures lmsAllNone = List.replicate 10 0 ∧
    (Calibrator.extractFeatures lmsIris).length = 10 :=
  ⟨(feature_extraction_total lmsAllNone).2.1 (Or.inl rfl),
    (feature_extraction_total lmsIris).1⟩

/-- C6: finishing calibration with zero collected samples leaves the model
absent and the calibrating flag cleared, and every subsequent predictGaze
call returns null rather than crashing. -/
theorem finish_empty_leaves_model_absent (c : Calibrator)
    (h : c.gazeData = []) :
    c.finishCalibration.model = none ∧
    c.finishCalibration.isCalibrating = false ∧
    ∀ lms : Landmarks, c.finishCalibration.predictGaze lms = none := by
  have hm : c.finishCalibration.model = none := by
    simp [Calibrator.finishCalibration, Calibrator.trainModel, h]
  refine ⟨hm, ?_, fun lms => ?_⟩
  · simp [Calibrator.finishCalibration, Calibrator.trainModel, h]
  · simp [Calibrator.predictGaze, hm]

/-- Witness for C6: finishing a freshly started calibration of a 100 x 100
calibrator (zero samples) leaves the model absent and predictions null. -/
theorem finish_empty_leaves_model_absent_witness :
    ((Calibrator.init 100 100).startCalibration).finishCalibration.model = none ∧
    ((Calibrator.init 100 100).startCalibration).finishCalibration.predictGaze
      lmsIris = none := by
  have h := finish_empty_leaves_model_absent
    ((Calibrator.init 100 100).startCalibration) rfl
  exact ⟨h.1, h.2.2 lmsIris⟩

/-- C7: with any trained model and nonnegative screen dimensions, predictGaze
returns a point, and that point lies within [0, screenWidth] x
[0, screenHeight] for every landmark input. -/
theorem predict_clamped (c : Calibrator) (m : CalModel) (hm : c.model = some m)
    (hW : 0 ≤ c.screenWidth) (hH : 0 ≤ c.screenHeight) (lms : Landmarks) :
    c.predictGaze lms =
      some (max 0 (min c.screenWidth ((Calibrator.extractFeatures lms).getD 6 0 + m.offsetX)),
            max 0 (min c.screenHeight ((Calibrator.extractFeatures lms).getD 7 0 + m.offsetY))) ∧
    ∀ p : Point, c.predictGaze lms = some p →
      0 ≤ p.1 ∧ p.1 ≤ c.screenWidth ∧ 0 ≤ p.2 ∧ p.2 ≤ c.screenHeight := by
  have heq : c.predictGaze lms =
      some (max 0 (min c.screenWidth ((Calibrator.extractFeatures lms).getD 6 0 + m.offsetX)),
            max 0 (min c.screenHeight ((Calibrator.extractFeatures lms).getD 7 0 + m.offsetY))) := by
    simp [Calibrator.predictGaze, hm]
  refine ⟨heq, fun p hp => ?_⟩
  rw [heq] at hp
  injection hp with hp
  rw [← hp]
  refine ⟨le_max_left 0 _, max_le hW (min_le_left _ _),
    le_max_left 0 _, max_le hH (min_le_left _ _)⟩

/-- Witness for C7: a 100 x 100 calibrator with trained offset (3, 4) fed the
all-absent landmark list predicts the in-bounds point (3, 4). -/
theorem predict_clamped_witness :
    calWithModelEx.predictGaze lmsAllNone = some (3, 4) ∧
    0 ≤ (3 : ℝ) ∧ (3 : ℝ) ≤ calWithModelEx.screenWidth ∧
    0 ≤ (4 : ℝ) ∧ (4 : ℝ) ≤ calWithModelEx.screenHeight := by
  obtain ⟨heq, hbound⟩ := predict_clamped calWithModelEx ⟨3, 4⟩ rfl
    (by norm_num [calWithModelEx, Calibrator.init])
    (by norm_num [calWithModelEx, Calibrator.init]) lmsAllNone
  have heval : calWithModelEx.predictGaze lmsAllNone = some (3, 4) := by
    rw [heq]
    norm_num [calWithModelEx, Calibrator.init, Calibrator.extractFeatures, lmsAllNone]
  have hb := hbound (3, 4) heval
  exact ⟨heval, hb.1, hb.2.1, hb.2.2.1, hb.2.2.2⟩

lemma sum_map_eq_const_mul {α : Type} (l : List α) (f : α → ℝ) (v : ℝ)
    (h : ∀ s ∈ l, f s = v) : (l.map f).sum = v * l.length := by
  induction l with
  | nil => simp
  | cons a t ih =>
    have ha := h a (List.mem_cons_self a t)
    have ht := ih fun s hs => h s (List.mem_cons_of_mem a hs)
    simp [ha, ht]
    ring

lemma scenarioAData_offsets (W H : ℝ) (feat : List ℝ) :
    ∀ s ∈ scenarioAData W H feat,
      s.target.1 - s.gaze.1 = 5 ∧ s.target.2 - s.gaze.2 = 5 := by
  intro s hs
  simp only [scenarioAData, List.mem_flatMap, List.mem_replicate] at hs
  obtain ⟨tgt, htgt, hn, rfl⟩ := hs
  constructor <;> ring

lemma length_flatMap_const {α β : Type} (l : List α) (f : α → List β) (n : ℕ)
    (h : ∀ a ∈ l, (f a).length = n) : (l.flatMap f).length = l.length * n := by
  induction l with
  | nil => simp
  | cons a t ih =>
    have ha := h a (List.mem_cons_self a t)
    have ht := ih fun x hx => h x (List.mem_cons_of_mem a hx)
    simp [List.flatMap_cons, ha, ht]
    ring

lemma scenarioAData_length (W H : ℝ) (feat : List ℝ) :
    (scenarioAData W H feat).length = 750 := by
  rw [scenarioAData, length_flatMap_const _ _ 30 fun a ha => by simp,
    generateCalibrationTargets_length]

/-- C4: the fit step stores exactly the mean per-axis offset
target - observedGaze over all retained samples; in particular for the
Scenario A data set (every grid target, 30 samples each, all with
observedGaze = target - (5,5)) the fitted offset is exactly (5,5), and a
subsequent predictGaze returns the clamp of (base + 5, base + 5) where base
is feature positions 6 and 7. -/
theorem calibrator_fit_mean_offset :
    (∀ c : Calibrator, c.gazeData ≠ [] →
      c.trainModel.model = some
        ⟨((c.gazeData.map fun d => d.target.1 - d.gaze.1).sum) / (c.gazeData.length : ℝ),
          ((c.gazeData.map fun d => d.target.2 - d.gaze.2).sum) / (c.gazeData.length : ℝ)⟩) ∧
    (∀ (W H : ℝ) (feat : List ℝ),
      (Calibrator.trainModel
        { Calibrator.init W H with gazeData := scenarioAData W H feat }).model
        = some ⟨5, 5⟩) ∧
    (∀ (W H : ℝ) (feat : List ℝ) (lms : Landmarks),
      (Calibrator.trainModel
        { Calibrator.init W H with gazeData := scenarioAData W H feat }).predictGaze lms
        = some (max 0 (min W ((Calibrator.extractFeatures lms).getD 6 0 + 5)),
                max 0 (min H ((Calibrator.extractFeatures lms).getD 7 0 + 5)))) := by
  have hgen : ∀ c : Calibrator, c.gazeData ≠ [] →
      c.trainModel.model = some
        ⟨((c.gazeData.map fun d => d.target.1 - d.gaze.1).sum) / (c.gazeData.length : ℝ),
          ((c.gazeData.map fun d => d.target.2 - d.gaze.2).sum) / (c.gazeData.length : ℝ)⟩ := by
    intro c hne
    simp [Calibrator.trainModel, hne]
  have hox : ∀ (W H : ℝ) (feat : List ℝ),
      ((scenarioAData W H feat).map fun d => d.target.1 - d.gaze.1).sum
        / ((scenarioAData W H feat).length : ℝ) = 5 := by
    intro W H feat
    rw [sum_map_eq_const_mul _ _ 5 fun s hs => (scenarioAData_offsets W H feat s hs).1,
      scenarioAData_length]
    norm_num
  have hoy : ∀ (W H : ℝ) (feat : List ℝ),
      ((scenarioAData W H feat).map fun d => d.target.2 - d.gaze.2).sum
        / ((scenarioAData W H feat).length : ℝ) = 5 := by
    intro W H feat
    rw [sum_map_eq_const_mul _ _ 5 fun s hs => (scenarioAData_offsets W H feat s hs).2,
      scenarioAData_length]
    norm_num
  have hne : ∀ (W H : ℝ) (feat : List ℝ), scenarioAData W H feat ≠ [] := by
    intro W H feat hcon
    have := scenarioAData_length W H feat
    rw [hcon] at this
    simp at this
  have h2 : ∀ (W H : ℝ) (feat : List ℝ),
      (Calibrator.trainModel
        { Calibrator.init W H with gazeData := scenarioAData W H feat }).model
        = some ⟨5, 5⟩ := by
    intro W H feat
    have := hgen { Calibrator.init W H with gazeData := scenarioAData W H feat }
      (hne W H feat)
    rw [this]
    simp only [hox W H feat, hoy W H feat]
  refine ⟨hgen, h2, ?_⟩
  intro W H feat lms
  have hsw : (Calibrator.trainModel
      { Calibrator.init W H with gazeData := scenarioAData W H feat }).screenWidth
      = W := by
    simp [Calibrator.trainModel, Calibrator.init, apply_ite Calibrator.screenWidth]
  have hsh : (Calibrator.trainModel
      { Calibrator.init W H with gazeData := scenarioAData W H feat }).screenHeight
      = H := by
    simp [Calibrator.trainModel, Calibrator.init, apply_ite Calibrator.screenHeight]
  simp [Calibrator.predictGaze, h2 W H feat, hsw, hsh]

/-- Witness for C4: the mean-offset formula evaluated on one concrete sample
and the Scenario A conclusion at a concrete 600 x 600 screen. -/
theorem calibrator_fit_mean_offset_witness :
    calOneSampleEx.trainModel.model = some ⟨3, 4⟩ ∧
    (Calibrator.trainModel
      { Calibrator.init 600 600 with gazeData := scenarioAData 600 600 [] }).model
      = some ⟨5, 5⟩ := by
  constructor
  · have h1 := calibrator_fit_mean_offset.1 calOneSampleEx
      (by simp [calOneSampleEx, Calibrator.init])
    rw [h1]
    norm_num [calOneSampleEx, Calibrator.init]
  · exact calibrator_fit_mean_offset.2.1 600 600 []

lemma trainModel_fieldsEq (c : Calibrator) :
    c.trainModel.samplesPerPoint = c.samplesPerPoint ∧
    c.trainModel.calibrationTargets = c.calibrationTargets ∧
    c.trainModel.isCalibrating = c.isCalibrating ∧
    c.trainModel.currentCalibrationIndex = c.currentCalibrationIndex ∧
    c.trainModel.currentSamples = c.currentSamples := by
  unfold Calibrator.trainModel
  split_ifs <;> exact ⟨rfl, rfl, rfl, rfl, rfl⟩

lemma finishCalibration_fieldsEq (c : Calibrator) :
    c.finishCalibration.isCalibrating = false ∧
    c.finishCalibration.samplesPerPoint = c.samplesPerPoint ∧
    c.finishCalibration.calibrationTargets = c.calibrationTargets := by
  unfold Calibrator.finishCalibration
  exact ⟨(trainModel_fieldsEq _).2.2.1, (trainModel_fieldsEq _).1,
    (trainModel_fieldsEq _).2.1⟩

lemma addGazeSample_not_calibrating (c : Calibrator) (lms : Landmarks)
    (g : Point) (hcal : c.isCalibrating = false) : c.addGazeSample lms g = c := by
  simp [Calibrator.addGazeSample, hcal]

lemma addGazeSample_no_target (c : Calibrator) (lms : Landmarks) (g : Point)
    (hcal : c.isCalibrating = true)
    (htgt : c.calibrationTargets[c.currentCalibrationIndex]? = none) :
    c.addGazeSample lms g = c := by
  simp [Calibrator.addGazeSample, hcal, htgt]

lemma addGazeSample_collect (c : Calibrator) (lms : Landmarks) (g : Point)
    (tgt : Point) (hcal : c.isCalibrating = true)
    (htgt : c.calibrationTargets[c.currentCalibrationIndex]? = some tgt)
    (h30 : c.samplesPerPoint = 30) (hge : ¬ 30 ≤ c.currentSamples + 1) :
    c.addGazeSample lms g =
      { c with gazeData := c.gazeData ++ [⟨Calibrator.extractFeatures lms, g, tgt⟩],
               currentSamples := c.currentSamples + 1 } := by
  simp [Calibrator.addGazeSample, hcal, htgt, h30, hge]

lemma addGazeSample_advance (c : Calibrator) (lms : Landmarks) (g : Point)
    (tgt : Point) (hcal : c.isCalibrating = true)
    (htgt : c.calibrationTargets[c.currentCalibrationIndex]? = some tgt)
    (h30 : c.samplesPerPoint = 30) (h25 : c.calibrationTargets.length = 25)
    (hge : 30 ≤ c.currentSamples + 1)
    (hidx : ¬ 25 ≤ c.currentCalibrationIndex + 1) :
    c.addGazeSample lms g =
      { c with gazeData := c.gazeData ++ [⟨Calibrator.extractFeatures lms, g, tgt⟩],
               currentCalibrationIndex := c.currentCalibrationIndex + 1,
               currentSamples := 0 } := by
  simp [Calibrator.addGazeSample, hcal, htgt, h30, h25, hge, hidx]

lemma addGazeSample_finish (c : Calibrator) (lms : Landmarks) (g : Point)
    (tgt : Point) (hcal : c.isCalibrating = true)
    (htgt : c.calibrationTargets[c.currentCalibrationIndex]? = some tgt)
    (h30 : c.samplesPerPoint = 30) (h25 : c.calibrationTargets.length = 25)
    (hge : 30 ≤ c.currentSamples + 1)
    (hidx : 25 ≤ c.currentCalibrationIndex + 1) :
    c.addGazeSample lms g =
      Calibrator.finishCalibration
        { c with gazeData := c.gazeData ++ [⟨Calibrator.extractFeatures lms, g, tgt⟩],
                 currentCalibrationIndex := c.currentCalibrationIndex + 1,
                 currentSamples := 0 } := by
  simp [Calibrator.addGazeSample, hcal, htgt, h30, h25, hge, hidx]

lemma moveToNext_not_calibrating (c : Calibrator)
    (hcal : c.isCalibrating = false) : c.moveToNextCalibrationPoint = c := by
  simp [Calibrator.moveToNextCalibrationPoint, hcal]

lemma moveToNext_past_end (c : Calibrator) (hcal : c.isCalibrating = true)
    (hlt : ¬ c.currentCalibrationIndex < c.calibrationTargets.length) :
    c.moveToNextCalibrationPoint = c := by
  simp [Calibrator.moveToNextCalibrationPoint, hcal, hlt]

lemma moveToNext_advance (c : Calibrator) (hcal : c.isCalibrating = true)
    (hlt : c.currentCalibrationIndex < c.calibrationTargets.length)
    (hidx : ¬ c.calibrationTargets.length ≤ c.currentCalibrationIndex + 1) :
    c.moveToNextCalibrationPoint =
      { c with currentCalibrationIndex := c.currentCalibrationIndex + 1,
               currentSamples := 0 } := by
  simp [Calibrator.moveToNextCalibrationPoint, hcal, hlt, hidx]

lemma moveToNext_finish (c : Calibrator) (hcal : c.isCalibrating = true)
    (hlt : c.currentCalibrationIndex < c.calibrationTargets.length)
    (hidx : c.calibrationTargets.length ≤ c.currentCalibrationIndex + 1) :
    c.moveToNextCalibrationPoint =
      Calibrator.finishCalibration
        { c with currentCalibrationIndex := c.currentCalibrationIndex + 1,
                 currentSamples := 0 } := by
  simp [Calibrator.moveToNextCalibrationPoint, hcal, hlt, hidx]

lemma calInv_finishCalibration (c : Calibrator) (h30 : c.samplesPerPoint = 30)
    (h25 : c.calibrationTargets.length = 25) : CalInv c.finishCalibration := by
  obtain ⟨hfalse, hsp, hct⟩ := finishCalibration_fieldsEq c
  refine ⟨by rw [hsp, h30], by rw [hct, h25], ?_⟩
  intro hcal
  rw [hfalse] at hcal
  cases hcal

lemma calInv_addGazeSample (c : Calibrator) (lms : Landmarks) (g : Point)
    (h : CalInv c) : CalInv (c.addGazeSample lms g) := by
  obtain ⟨h30, h25, hb⟩ := h
  cases hcal : c.isCalibrating
  · rw [addGazeSample_not_calibrating c lms g hcal]
    exact ⟨h30, h25, hb⟩
  · obtain ⟨hidx, hcur⟩ := hb hcal
    rcases htgt : c.calibrationTargets[c.currentCalibrationIndex]? with _ | tgt
    · rw [addGazeSample_no_target c lms g hcal htgt]
      exact ⟨h30, h25, hb⟩
    · by_cases hge : 30 ≤ c.currentSamples + 1
      · by_cases hix : 25 ≤ c.currentCalibrationIndex + 1
        · rw [addGazeSample_finish c lms g tgt hcal htgt h30 h25 hge hix]
          exact calInv_finishCalibration _ h30 h25
        · rw [addGazeSample_advance c lms g tgt hcal htgt h30 h25 hge hix]
          refine ⟨h30, h25, fun _ => ⟨?_, ?_⟩⟩
          all_goals simp
          all_goals omega
      · rw [addGazeSample_collect c lms g tgt hcal htgt h30 hge]
        refine ⟨h30, h25, fun _ => ⟨?_, ?_⟩⟩
        all_goals simp
        · exact hidx
        · omega

lemma calInv_moveToNext (c : Calibrator) (h : CalInv c) :
    CalInv c.moveToNextCalibrationPoint := by
  obtain ⟨h30, h25, hb⟩ := h
  cases hcal : c.isCalibrating
  · rw [moveToNext_not_calibrating c hcal]
    exact ⟨h30, h25, hb⟩
  · obtain ⟨hidx, hcur⟩ := hb hcal
    by_cases hlt : c.currentCalibrationIndex < c.calibrationTargets.length
    · by_cases hix : c.calibrationTargets.length ≤ c.currentCalibrationIndex + 1
      · rw [moveToNext_finish c hcal hlt hix]
        exact calInv_finishCalibration _ h30 h25
      · rw [moveToNext_advance c hcal hlt hix]
        rw [h25] at hix
        refine ⟨h30, h25, fun _ => ⟨?_, ?_⟩⟩
        all_goals simp
        all_goals omega
    · rw [moveToNext_past_end c hcal hlt]
      exact ⟨h30, h25, hb⟩

lemma calInv_start (W H : ℝ) : CalInv ((Calibrator.init W H).startCalibration) := by
  refine ⟨rfl, ?_, fun _ => ⟨?_, ?_⟩⟩
  · show (Calibrator.generateCalibrationTargets W H).length = 25
    exact generateCalibrationTargets_length W H
  · simp [Calibrator.startCalibration]
  · simp [Calibrator.startCalibration]

lemma calInv_runOps (ops : List CalOp) (c : Calibrator) (h : CalInv c) :
    CalInv (c.runOps ops) := by
  induction ops generalizing c with
  | nil => exact h
  | cons op l ih =>
    have hstep : c.runOps (op :: l) =
        (match op with
          | CalOp.addSample lms g => c.addGazeSample lms g
          | CalOp.moveNext => c.moveToNextCalibrationPoint).runOps l := rfl
    rw [hstep]
    cases op with
    | addSample lms g => exact ih _ (calInv_addGazeSample c lms g h)
    | moveNext => exact ih _ (calInv_moveToNext c h)

lemma progress_not_calibrating (c : Calibrator) (hcal : c.isCalibrating = false) :
    c.getCalibrationProgress = 1 := by
  simp [Calibrator.getCalibrationProgress, hcal]

lemma progress_bounds (c : Calibrator) (h : CalInv c)
    (hcal : c.isCalibrating = true) :
    c.getCalibrationProgress =
      ((c.currentCalibrationIndex * 30 + c.currentSamples : ℕ) : ℝ) / 750 ∧
    0 ≤ c.getCalibrationProgress ∧ c.getCalibrationProgress < 1 := by
  obtain ⟨h30, h25, hb⟩ := h
  obtain ⟨hidx, hcur⟩ := hb hcal
  have hform : c.getCalibrationProgress =
      ((c.currentCalibrationIndex * 30 + c.currentSamples : ℕ) : ℝ) / 750 := by
    simp [Calibrator.getCalibrationProgress, hcal, h30, h25]
  refine ⟨hform, ?_, ?_⟩
  · rw [hform]
    positivity
  · rw [hform]
    rw [div_lt_one (by norm_num)]
    have hle : c.currentCalibrationIndex * 30 + c.currentSamples ≤ 749 := by omega
    calc ((c.currentCalibrationIndex * 30 + c.currentSamples : ℕ) : ℝ)
        ≤ 749 := by exact_mod_cast hle
      _ < 750 := by norm_num

lemma progress_formula (c : Calibrator) (hcal : c.isCalibrating = true)
    (h30 : c.samplesPerPoint = 30) (h25 : c.calibrationTargets.length = 25) :
    c.getCalibrationProgress =
      ((c.currentCalibrationIndex * 30 + c.currentSamples : ℕ) : ℝ) / 750 := by
  simp [Calibrator.getCalibrationProgress, hcal, h30, h25]

lemma progress_after_collect (c : Calibrator) (lms : Landmarks) (g : Point)
    (tgt : Point) (hcal : c.isCalibrating = true)
    (htgt : c.calibrationTargets[c.currentCalibrationIndex]? = some tgt)
    (h30 : c.samplesPerPoint = 30) (h25 : c.calibrationTargets.length = 25)
    (hge : ¬ 30 ≤ c.currentSamples + 1) :
    (c.addGazeSample lms g).getCalibrationProgress =
      ((c.currentCalibrationIndex * 30 + (c.currentSamples + 1) : ℕ) : ℝ) / 750 := by
  rw [addGazeSample_collect c lms g tgt hcal htgt h30 hge]
  simp [Calibrator.getCalibrationProgress, hcal, h30, h25]

lemma progress_after_advance (c : Calibrator) (lms : Landmarks) (g : Point)
    (tgt : Point) (hcal : c.isCalibrating = true)
    (htgt : c.calibrationTargets[c.currentCalibrationIndex]? = some tgt)
    (h30 : c.samplesPerPoint = 30) (h25 : c.calibrationTargets.length = 25)
    (hge : 30 ≤ c.currentSamples + 1)
    (hidx : ¬ 25 ≤ c.currentCalibrationIndex + 1) :
    (c.addGazeSample lms g).getCalibrationProgress =
      (((c.currentCalibrationIndex + 1) * 30 : ℕ) : ℝ) / 750 := by
  rw [addGazeSample_advance c lms g tgt hcal htgt h30 h25 hge hidx]
  simp [Calibrator.getCalibrationProgress, hcal, h30, h25]

lemma progress_after_finish (c : Calibrator) (lms : Landmarks) (g : Point)
    (tgt : Point) (hcal : c.isCalibrating = true)
    (htgt : c.calibrationTargets[c.currentCalibrationIndex]? = some tgt)
    (h30 : c.samplesPerPoint = 30) (h25 : c.calibrationTargets.length = 25)
    (hge : 30 ≤ c.currentSamples + 1)
    (hidx : 25 ≤ c.currentCalibrationIndex + 1) :
    (c.addGazeSample lms g).getCalibrationProgress = 1 := by
  rw [addGazeSample_finish c lms g tgt hcal htgt h30 h25 hge hidx]
  exact progress_not_calibrating _ (finishCalibration_fieldsEq _).1

lemma progress_mono (c : Calibrator) (lms : Landmarks) (g : Point)
    (h : CalInv c) :
    c.getCalibrationProgress ≤ (c.addGazeSample lms g).getCalibrationProgress := by
  obtain ⟨h30, h25, hb⟩ := h
  cases hcal : c.isCalibrating
  · rw [addGazeSample_not_calibrating c lms g hcal]
  · have hpb := progress_bounds c ⟨h30, h25, hb⟩ hcal
    rcases htgt : c.calibrationTargets[c.currentCalibrationIndex]? with _ | tgt
    · rw [addGazeSample_no_target c lms g hcal htgt]
    · by_cases hge : 30 ≤ c.currentSamples + 1
      · by_cases hix : 25 ≤ c.currentCalibrationIndex + 1
        · rw [progress_after_finish c lms g tgt hcal htgt h30 h25 hge hix]
          exact hpb.2.2.le
        · rw [hpb.1, progress_after_advance c lms g tgt hcal htgt h30 h25 hge hix]
          have hnum : c.currentCalibrationIndex * 30 + c.currentSamples
              ≤ (c.currentCalibrationIndex + 1) * 30 := by
            obtain ⟨hidx, hcur⟩ := hb hcal
            omega
          exact div_le_div_of_nonneg_right (by exact_mod_cast hnum) (by norm_num)
      · rw [hpb.1, progress_after_collect c lms g tgt hcal htgt h30 h25 hge]
        have hnum : c.currentCalibrationIndex * 30 + c.currentSamples
            ≤ c.currentCalibrationIndex * 30 + (c.currentSamples + 1) := by omega
        exact div_le_div_of_nonneg_right (by exact_mod_cast hnum) (by norm_num)

/-- C8: in any state reached from startCalibration by addGazeSample and
moveToNextCalibrationPoint calls, getCalibrationProgress equals
(targetIndex * samplesPerPoint + samplesAtCurrentTarget) /
(numTargets * samplesPerPoint) while calibrating, always lies in [0, 1], is
non-decreasing across addGazeSample calls, and equals exactly 1 iff the run
is no longer calibrating (finishCalibration has run). -/
theorem calibration_progress_props (W H : ℝ) (ops : List CalOp) (c : Calibrator)
    (hc : c = ((Calibrator.init W H).startCalibration).runOps ops) :
    (c.isCalibrating = true →
      c.getCalibrationProgress =
        ((c.currentCalibrationIndex * c.samplesPerPoint + c.currentSamples : ℕ) : ℝ)
          / ((c.calibrationTargets.length * c.samplesPerPoint : ℕ) : ℝ)) ∧
    (0 ≤ c.getCalibrationProgress ∧ c.getCalibrationProgress ≤ 1) ∧
    (∀ (lms : Landmarks) (g : Point),
      c.getCalibrationProgress ≤ (c.addGazeSample lms g).getCalibrationProgress) ∧
    (c.getCalibrationProgress = 1 ↔ c.isCalibrating = false) := by
  have hInv : CalInv c := by
    rw [hc]
    exact calInv_runOps ops _ (calInv_start W H)
  obtain ⟨h30, h25, hb⟩ := hInv
  refine ⟨?_, ?_, ?_, ?_⟩
  · intro hcal
    simp [Calibrator.getCalibrationProgress, hcal]
  · cases hcal : c.isCalibrating
    · rw [progress_not_calibrating c hcal]
      norm_num
    · have hpb := progress_bounds c ⟨h30, h25, hb⟩ hcal
      exact ⟨hpb.2.1, hpb.2.2.le⟩
  · intro lms g
    exact progress_mono c lms g ⟨h30, h25, hb⟩
  · constructor
    · intro h1
      cases hcal : c.isCalibrating
      · rfl
      · have hpb := progress_bounds c ⟨h30, h25, hb⟩ hcal
        rw [h1] at hpb
        exact absurd hpb.2.2 (by norm_num)
    · exact progress_not_calibrating c

/-- Witness for C8: the freshly started run (no operations yet) has progress
0, is calibrating, and one concrete addGazeSample does not decrease it. -/
theorem calibration_progress_props_witness :
    ((Calibrator.init 100 100).startCalibration).getCalibrationProgress = 0 ∧
    ((Calibrator.init 100 100).startCalibration).isCalibrating = true ∧
    ((Calibrator.init 100 100).startCalibration).getCalibrationProgress ≤
      (((Calibrator.init 100 100).startCalibration).addGazeSample lmsIris
        (0, 0)).getCalibrationProgress := by
  have h := calibration_progress_props 100 100 []
    ((Calibrator.init 100 100).startCalibration) rfl
  refine ⟨?_, rfl, h.2.2.1 lmsIris (0, 0)⟩
  rw [h.1 rfl]
  have hlen : ((Calibrator.init 100 100).startCalibration).calibrationTargets.length
      = 25 := generateCalibrationTargets_length 100 100
  rw [show ((Calibrator.init 100 100).startCalibration).currentCalibrationIndex = 0
    from rfl]
  norm_num
  exact Or.inl rfl
